import Mathlib

/-
Verification development for the kbase-data-thrift-js binary protocol codec.

The repository holds two near-identical AMD modules implementing the Apache
Thrift TBinaryProtocol over an abstract byte transport:
  * src/unnamed/part_000                              (the utf8-module variant)
  * src/src/js/lib/kb/thrift/protocol/binary.js       (the inline-utf8 variant)
Line references in the comments below are to src/unnamed/part_000 unless the
binary.js variant is named explicitly.

Modelling conventions:
  * The transport channel is an ordered sequence of numbers, `Bytes := List Int`
    (values handed to `transport.writeByte` / returned by `transport.readByte`;
    an octet stream carries values in [0, 255]).
  * JavaScript numbers holding exact integers are modelled as `Int`; the
    JavaScript bitwise operators (which coerce through 32-bit two's complement)
    are modelled by the `js*` helpers below.
  * Thrown exceptions are modelled by `Except PErr`; the `PErr` constructors
    mirror the individual `throw` sites.
  * The UTF-8 text codec is an injected external capability (spec section 2);
    strings are represented by their UTF-8 byte sequences, so `utf8.encode`
    and `utf8.decode` are identities in the model.
  * `transport.read(n)` must produce exactly `n` bytes or fail (spec section
    6); a short (or negative-length) read is `PErr.channelShortRead`.
-/

namespace KBThrift

/-- A byte channel: the sequence of numbers exchanged with the transport. -/
abbrev Bytes := List Int

/-- One constructor per distinct throw site of the source (plus the two
channel-level failures and the fuel marker used to present the recursive
`skip` as a total function). -/
inductive PErr where
  /-- pack16, value below `int16min` (line 236). -/
  | numTooSmallI16
  /-- pack16, value above `int16max` (line 241). -/
  | numTooLargeI16
  /-- unpack16, packed length not 2 (line 266). -/
  | sizeMismatchI16
  /-- pack32, value below `int32min` (line 202). -/
  | numTooSmallI32
  /-- pack32, value above `int32max` (line 207). -/
  | numTooLargeI32
  /-- unpack32, packed length not 4 (line 217). -/
  | sizeMismatchI32
  /-- pack64, value below `int64min` (line 150). -/
  | numTooSmallI64
  /-- pack64, value above `int64max` (line 156). -/
  | numTooLargeI64
  /-- unpack64, packed length not 8 (line 169). -/
  | sizeMismatchI64
  /-- readMessageBegin, versioned branch (line 503). -/
  | missingVersionIdentifier
  /-- readMessageBegin, unversioned branch under strictRead (line 514). -/
  | invalidVersionIdentifier
  /-- writeByte, generic `Error` for values outside the 32-bit guard (line 393). -/
  | incorrectForByte
  /-- skip of a MAP, second iteration: `this.rpos[this.rpos.length - 1]`
  dereferences `this.rpos`, which is never initialized anywhere in either
  module, raising a TypeError (line 775). -/
  | rposUndefinedTypeError
  /-- transport-level failure: the channel could not supply the requested
  bytes (external collaborator, spec section 6). -/
  | channelShortRead
  /-- model artifact: recursion fuel for `skip` ran out (never reached in any
  theorem below; the source recursion is bounded by the stream it consumes). -/
  | outOfFuel
deriving DecidableEq, Repr

instance {ε α : Type} [DecidableEq ε] [DecidableEq α] : DecidableEq (Except ε α) :=
  fun a b =>
    match a, b with
    | .ok x, .ok y => if h : x = y then .isTrue (by rw [h]) else .isFalse (by simp [h])
    | .error x, .error y => if h : x = y then .isTrue (by rw [h]) else .isFalse (by simp [h])
    | .ok _, .error _ => .isFalse (by simp)
    | .error _, .ok _ => .isFalse (by simp)

/-! ### JavaScript 32-bit operator semantics

The JavaScript bitwise operators first coerce each operand through ToInt32
(reduce mod 2^32, reinterpret as signed two's complement), operate on the 32
bit patterns, and reinterpret the result as a signed 32-bit integer.  `>>` is
the sign-propagating (arithmetic) shift, i.e. floor division of the signed
value; shift counts are taken mod 32. -/

/-- The unsigned 32-bit pattern of a JavaScript number holding an integer. -/
def bits32 (v : Int) : Nat := (v % 4294967296).toNat

/-- Reinterpret an unsigned 32-bit pattern as a signed 32-bit integer. -/
def ofBits32 (n : Nat) : Int :=
  if n % 4294967296 < 2147483648 then ((n % 4294967296 : Nat) : Int)
  else ((n % 4294967296 : Nat) : Int) - 4294967296

/-- JavaScript `a & b`. -/
def jsAnd (a b : Int) : Int := ofBits32 (Nat.land (bits32 a) (bits32 b))

/-- JavaScript `a | b`. -/
def jsOr (a b : Int) : Int := ofBits32 (Nat.lor (bits32 a) (bits32 b))

/-- JavaScript `a ^ b`. -/
def jsXor (a b : Int) : Int := ofBits32 (Nat.xor (bits32 a) (bits32 b))

/-- JavaScript `a << k`. -/
def jsShl (a : Int) (k : Nat) : Int := ofBits32 (Nat.shiftLeft (bits32 a) (k % 32))

/-- JavaScript `a >> k` (sign-propagating): floor division of the signed
32-bit value by `2 ^ k`; `Int` division `/` is Euclidean division, which for a
positive divisor is floor division. -/
def jsShr (a : Int) (k : Nat) : Int := ofBits32 (bits32 a) / 2 ^ (k % 32)

/-- JavaScript `a !== b` coerced to a number, as happens when the comparison
result becomes an operand of `&` (true → 1, false → 0). -/
def jsNeq (a b : Int) : Int := if a ≠ b then 1 else 0

/-! ### Protocol constants (lines 81-102) -/

def VERSION_MASK : Int := 0xffff0000
def VERSION_1 : Int := 0x80010000
def TYPE_MASK : Int := 0x000000ff

/-- Note the asymmetry: the source sets each `min` to the negation of `max`,
not to the two's-complement minimum (lines 97-102). -/
def int64max : Int := 0x1fffffffffffff
def int64min : Int := -int64max
def int32max : Int := 0x7fffffff
def int32min : Int := -int32max
def int16max : Int := 0x7fff
def int16min : Int := -int16max

/-! ### Primitive packer / unpacker (lines 85-272) -/

/-- The eight big-endian bytes extracted by the `paddedHex` substring loop of
`p64` (lines 112-131): hex pair `i` of the zero-padded 16-hex-digit rendering
of `n`, most significant first (the loop pushes least-significant first and
reverses), i.e. `n / 256 ^ (7 - i) % 256`. -/
def hexBytes (n : Nat) : Bytes :=
  [((n / 2 ^ 56 % 256 : Nat) : Int), ((n / 2 ^ 48 % 256 : Nat) : Int),
   ((n / 2 ^ 40 % 256 : Nat) : Int), ((n / 2 ^ 32 % 256 : Nat) : Int),
   ((n / 2 ^ 24 % 256 : Nat) : Int), ((n / 2 ^ 16 % 256 : Nat) : Int),
   ((n / 2 ^ 8 % 256 : Nat) : Int), ((n % 256 : Nat) : Int)]

/-- p64 (lines 112-132): negative values are encoded by adding one, taking the
absolute value, decomposing to bytes and complementing each byte (`^ 0xff`). -/
def p64 (i64 : Int) : Bytes :=
  if i64 < 0 then (hexBytes (Int.natAbs (i64 + 1))).map (fun b => jsXor b 255)
  else hexBytes (Int.natAbs i64)

/-- The hex-string reassembly of `u64` (lines 134-147): each byte contributes
its last two hex digits (`paddedHex(value, 2)`, i.e. `value % 256`), and the
concatenation is parsed as one base-16 number. -/
def parseHex (packed : Bytes) : Int :=
  packed.foldl (fun acc b => acc * 256 + b % 256) 0

/-- u64 (lines 134-147).  The negativity test is `packed[0] &
parseInt('01111111', 2)`, i.e. `packed[0] & 0x7f` - the mask is 127, not the
sign bit 0x80, despite the comment in the source. -/
def u64 (packed : Bytes) : Int :=
  if jsAnd (packed.headD 0) 127 ≠ 0 then
    -(parseHex (packed.map (fun b => jsXor b 255))) - 1
  else parseHex packed

/-- pack64 (lines 149-166). -/
def pack64 (i64 : Int) : Except PErr Bytes :=
  if i64 < int64min then .error .numTooSmallI64
  else if i64 > int64max then .error .numTooLargeI64
  else .ok (p64 i64)

/-- unpack64 (lines 168-175). -/
def unpack64 (packed : Bytes) : Except PErr Int :=
  if packed.length ≠ 8 then .error .sizeMismatchI64 else .ok (u64 packed)

/-- p32 (lines 180-187). -/
def p32 (value : Int) : Bytes :=
  [jsAnd (jsShr value 24) 255, jsAnd (jsShr value 16) 255,
   jsAnd (jsShr value 8) 255, jsAnd value 255]

/-- u32 (lines 189-198): `value` starts at 0 and each byte is or-ed in. -/
def u32 (packed : Bytes) : Int :=
  jsOr (jsOr (jsOr (jsOr 0 (jsShl (packed.getD 0 0) 24)) (jsShl (packed.getD 1 0) 16))
    (jsShl (packed.getD 2 0) 8)) (packed.getD 3 0)

/-- pack32 (lines 201-213). -/
def pack32 (value : Int) : Except PErr Bytes :=
  if value < int32min then .error .numTooSmallI32
  else if value > int32max then .error .numTooLargeI32
  else .ok (p32 value)

/-- unpack32 (lines 216-223). -/
def unpack32 (packed : Bytes) : Except PErr Int :=
  if packed.length ≠ 4 then .error .sizeMismatchI32 else .ok (u32 packed)

/-- p16 (lines 229-234). -/
def p16 (value : Int) : Bytes :=
  [jsAnd (jsShr value 8) 255, jsAnd value 255]

/-- pack16 (lines 235-247). -/
def pack16 (value : Int) : Except PErr Bytes :=
  if value < int16min then .error .numTooSmallI16
  else if value > int16max then .error .numTooLargeI16
  else .ok (p16 value)

/-- u16 (lines 251-264). -/
def u16 (packed : Bytes) : Int :=
  if jsAnd (packed.getD 0 0) 128 ≠ 0 then
    -(jsOr (jsShl (jsXor (packed.getD 0 0) 255) 8) (jsXor (packed.getD 1 0) 255)) - 1
  else jsOr (jsShl (packed.getD 0 0) 8) (packed.getD 1 0)

/-- unpack16 (lines 265-272). -/
def unpack16 (packed : Bytes) : Except PErr Int :=
  if packed.length ≠ 2 then .error .sizeMismatchI16 else .ok (u16 packed)

/-! ### External type-tag enumeration

Modelled from the spec: the type tags and message kinds are consumed from the
`../core` module, which is not part of the repository sources provided (spec
section 6 lists them as an external interface).  The numeric values are the
standard Apache Thrift TBinaryProtocol tag codes; the claims below do not
depend on the particular values, only on their distinctness and on writer and
reader using the same codes. -/

def tySTOP : Int := 0
def tyBOOL : Int := 2
def tyBYTE : Int := 3
def tyDOUBLE : Int := 4
def tyI16 : Int := 6
def tyI32 : Int := 8
def tyI64 : Int := 10
def tySTRING : Int := 11
def tySTRUCT : Int := 12
def tyMAP : Int := 13
def tySET : Int := 14
def tyLIST : Int := 15

/-- Modelled from the spec: message kind CALL from the external enumeration of
message kinds (CALL/REPLY/EXCEPTION/ONEWAY); Apache Thrift value 1. -/
def msgCALL : Int := 1

/-! ### Frame Writer (lines 274-486)

Each write operation returns the sequence of values it forwards to the
transport (`transport.writeByte` / `transport.write`), or the exception it
throws. -/

/-- writeByte (lines 391-396).  The guard is against the 32-bit bounds
`Math.pow(2, 31)`, not the byte bounds; any other value is forwarded to the
transport unchanged. -/
def writeByte (byte : Int) : Except PErr Bytes :=
  if byte ≤ -(2 ^ 31) ∨ byte ≥ 2 ^ 31 then .error .incorrectForByte
  else .ok [byte]

/-- writeBool (lines 387-389). -/
def writeBool (b : Bool) : Except PErr Bytes :=
  writeByte (if b then 1 else 0)

/-- writeI16 (lines 399-404): the packed bytes are forwarded one by one. -/
def writeI16 (i16 : Int) : Except PErr Bytes := pack16 i16

/-- writeI32 (lines 406-411). -/
def writeI32 (i32 : Int) : Except PErr Bytes := pack32 i32

/-- writeI64 (lines 413-418). -/
def writeI64 (i64 : Int) : Except PErr Bytes := pack64 i64

/-- writeString (lines 477-481): utf8-encode (identity on the byte
representation used here), write the byte length as i32, then the raw bytes. -/
def writeString (strBytes : Bytes) : Except PErr Bytes :=
  match writeI32 (strBytes.length : Int) with
  | .error e => .error e
  | .ok lenBytes => .ok (lenBytes ++ strBytes)

/-- writeMessageBegin (lines 284-295). -/
def writeMessageBegin (strictWrite : Bool) (name : Bytes) (type seqid : Int) :
    Except PErr Bytes :=
  if strictWrite then
    match writeI16 (jsShr VERSION_1 16) with
    | .error e => .error e
    | .ok a =>
      match writeI16 type with
      | .error e => .error e
      | .ok b =>
        match writeString name with
        | .error e => .error e
        | .ok c =>
          match writeI32 seqid with
          | .error e => .error e
          | .ok d => .ok (a ++ b ++ c ++ d)
  else
    match writeString name with
    | .error e => .error e
    | .ok a =>
      match writeByte type with
      | .error e => .error e
      | .ok b =>
        match writeI32 seqid with
        | .error e => .error e
        | .ok c => .ok (a ++ b ++ c)

/-- writeMessageEnd (lines 299-301): nothing to do. -/
def writeMessageEnd : Bytes := []

/-- writeStructBegin (lines 306-308): no bytes carried. -/
def writeStructBegin : Bytes := []

/-- writeStructEnd (lines 312-314). -/
def writeStructEnd : Bytes := []

/-- writeFieldBegin (lines 322-325); the unused `name` argument is omitted. -/
def writeFieldBegin (type id : Int) : Except PErr Bytes :=
  match writeByte type with
  | .error e => .error e
  | .ok a =>
    match writeI16 id with
    | .error e => .error e
    | .ok b => .ok (a ++ b)

/-- writeFieldEnd (lines 329-331). -/
def writeFieldEnd : Bytes := []

/-- writeFieldStop (lines 335-337). -/
def writeFieldStop : Except PErr Bytes := writeByte tySTOP

/-- writeMapBegin (lines 344-348). -/
def writeMapBegin (keyType valType size : Int) : Except PErr Bytes :=
  match writeByte keyType with
  | .error e => .error e
  | .ok a =>
    match writeByte valType with
    | .error e => .error e
    | .ok b =>
      match writeI32 size with
      | .error e => .error e
      | .ok c => .ok (a ++ b ++ c)

/-- writeMapEnd (lines 352-354). -/
def writeMapEnd : Bytes := []

/-- writeListBegin (lines 360-363). -/
def writeListBegin (elemType size : Int) : Except PErr Bytes :=
  match writeByte elemType with
  | .error e => .error e
  | .ok a =>
    match writeI32 size with
    | .error e => .error e
    | .ok b => .ok (a ++ b)

/-- writeListEnd (lines 367-370). -/
def writeListEnd : Bytes := []

/-- writeSetBegin (lines 376-379). -/
def writeSetBegin (elemType size : Int) : Except PErr Bytes :=
  match writeByte elemType with
  | .error e => .error e
  | .ok a =>
    match writeI32 size with
    | .error e => .error e
    | .ok b => .ok (a ++ b)

/-- writeSetEnd (lines 383-385). -/
def writeSetEnd : Bytes := []

/-! ### Frame Reader (lines 487-737)

Each read operation maps the remaining channel contents to its result
together with the channel contents left over, or to the exception thrown. -/

/-- transport.readByte: the channel yields its next value or fails
(external collaborator, spec section 6). -/
def tReadByte : Bytes → Except PErr (Int × Bytes)
  | [] => .error .channelShortRead
  | b :: s => .ok (b, s)

/-- readMultiple (lines 735-737), i.e. transport.read(len): exactly `len`
bytes or a channel-level failure (a negative request cannot be satisfied). -/
def readMultiple (len : Int) (s : Bytes) : Except PErr (Bytes × Bytes) :=
  if 0 ≤ len ∧ len.toNat ≤ s.length then .ok (s.take len.toNat, s.drop len.toNat)
  else .error .channelShortRead

/-- readByte (lines 624-630): values above 0x7f are sign-converted via
`0 - ((val - 1) ^ 0xff)`. -/
def readByte (s : Bytes) : Except PErr (Int × Bytes) :=
  match tReadByte s with
  | .error e => .error e
  | .ok (val, s) =>
    if val > 127 then .ok (0 - jsXor (val - 1) 255, s) else .ok (val, s)

/-- readBool (lines 618-621). -/
def readBool (s : Bytes) : Except PErr (Bool × Bytes) :=
  match readByte s with
  | .error e => .error e
  | .ok (byte, s) => .ok (byte ≠ 0, s)

/-- readI16 (lines 633-641): two raw transport bytes, then unpack16. -/
def readI16 (s : Bytes) : Except PErr (Int × Bytes) :=
  match s with
  | b0 :: b1 :: s =>
    (match unpack16 [b0, b1] with
     | .error e => .error e
     | .ok v => .ok (v, s))
  | _ => .error .channelShortRead

/-- readI32 (lines 644-657): four raw transport bytes, then unpack32. -/
def readI32 (s : Bytes) : Except PErr (Int × Bytes) :=
  match s with
  | b0 :: b1 :: b2 :: b3 :: s =>
    (match unpack32 [b0, b1, b2, b3] with
     | .error e => .error e
     | .ok v => .ok (v, s))
  | _ => .error .channelShortRead

/-- readI64 (lines 660-674): eight raw transport bytes, then unpack64. -/
def readI64 (s : Bytes) : Except PErr (Int × Bytes) :=
  match s with
  | b0 :: b1 :: b2 :: b3 :: b4 :: b5 :: b6 :: b7 :: s =>
    (match unpack64 [b0, b1, b2, b3, b4, b5, b6, b7] with
     | .error e => .error e
     | .ok v => .ok (v, s))
  | _ => .error .channelShortRead

/-- readDouble (lines 677-710) reads 8 bytes via readMultiple and reassembles
the host IEEE-754 binary64 float from the bit string.  The float value is not
modelled (host floating-point arithmetic); the byte consumption - exactly 8
bytes - is, which is all the framing and skip claims depend on. -/
def readDouble (s : Bytes) : Except PErr (Bytes × Bytes) := readMultiple 8 s

/-- readString (lines 713-720): i32 length prefix, then that many bytes,
utf8-decoded (identity in this byte-sequence model). -/
def readString (s : Bytes) : Except PErr (Bytes × Bytes) :=
  match readI32 s with
  | .error e => .error e
  | .ok (size, s) => readMultiple size s

/-- The result record of readMessageBegin (lines 488-524). -/
structure MsgBegin where
  fname : Bytes
  mtype : Int
  rseqid : Int
deriving DecidableEq, Repr

/-- readMessageBegin (lines 498-524).  The versioned branch tests

  `version & Thrift.TBinaryProtocol.VERSION_MASK !== Thrift.TBinaryProtocol.VERSION_1`

and in JavaScript `!==` binds tighter than `&`, so the expression evaluates as
`version & (VERSION_MASK !== VERSION_1)`, i.e. `version & 1` - the mask is
never applied before the comparison.  The model reproduces that evaluation
order exactly. -/
def readMessageBegin (strictRead : Bool) (s : Bytes) :
    Except PErr (MsgBegin × Bytes) :=
  match readI32 s with
  | .error e => .error e
  | .ok (version, s) =>
    if version < 0 then
      if jsAnd version (jsNeq VERSION_MASK VERSION_1) ≠ 0 then
        .error .missingVersionIdentifier
      else
        match readString s with
        | .error e => .error e
        | .ok (name, s) =>
          match readI32 s with
          | .error e => .error e
          | .ok (seqid, s) => .ok (⟨name, jsAnd version TYPE_MASK, seqid⟩, s)
    else
      if strictRead then .error .invalidVersionIdentifier
      else
        match readMultiple version s with
        | .error e => .error e
        | .ok (name, s) =>
          match readByte s with
          | .error e => .error e
          | .ok (type, s) =>
            match readI32 s with
            | .error e => .error e
            | .ok (seqid, s) => .ok (⟨name, type, seqid⟩, s)

/-- readMessageEnd (lines 526-527): consumes nothing, returns nothing. -/
def readMessageEnd (s : Bytes) : Except PErr (Unit × Bytes) := .ok ((), s)

/-- readStructBegin (lines 533-535): returns `{fname: ''}`, consumes nothing. -/
def readStructBegin (s : Bytes) : Except PErr (Bytes × Bytes) := .ok ([], s)

/-- readStructEnd (lines 537-538). -/
def readStructEnd (s : Bytes) : Except PErr (Unit × Bytes) := .ok ((), s)

/-- readFieldBegin (lines 550-557): a type byte; on STOP no field id is read. -/
def readFieldBegin (s : Bytes) : Except PErr ((Int × Int) × Bytes) :=
  match readByte s with
  | .error e => .error e
  | .ok (type, s) =>
    if type = tySTOP then .ok ((type, 0), s)
    else
      match readI16 s with
      | .error e => .error e
      | .ok (fid, s) => .ok ((type, fid), s)

/-- readFieldEnd (lines 559-561): returns `{value: ''}`, consumes nothing. -/
def readFieldEnd (s : Bytes) : Except PErr (Bytes × Bytes) := .ok ([], s)

/-- readMapBegin (lines 573-578). -/
def readMapBegin (s : Bytes) : Except PErr ((Int × Int × Int) × Bytes) :=
  match readByte s with
  | .error e => .error e
  | .ok (ktype, s) =>
    match readByte s with
    | .error e => .error e
    | .ok (vtype, s) =>
      match readI32 s with
      | .error e => .error e
      | .ok (size, s) => .ok ((ktype, vtype, size), s)

/-- readMapEnd (lines 580-582): `return this.readFieldEnd().value`. -/
def readMapEnd (s : Bytes) : Except PErr (Bytes × Bytes) := readFieldEnd s

/-- readListBegin (lines 593-597). -/
def readListBegin (s : Bytes) : Except PErr ((Int × Int) × Bytes) :=
  match readByte s with
  | .error e => .error e
  | .ok (etype, s) =>
    match readI32 s with
    | .error e => .error e
    | .ok (size, s) => .ok ((etype, size), s)

/-- readListEnd (lines 599-601). -/
def readListEnd (s : Bytes) : Except PErr (Bytes × Bytes) := readFieldEnd s

/-- readSetBegin (lines 606-610). -/
def readSetBegin (s : Bytes) : Except PErr ((Int × Int) × Bytes) :=
  match readByte s with
  | .error e => .error e
  | .ok (etype, s) =>
    match readI32 s with
    | .error e => .error e
    | .ok (size, s) => .ok ((etype, size), s)

/-- readSetEnd (lines 612-614). -/
def readSetEnd (s : Bytes) : Except PErr (Bytes × Bytes) := readFieldEnd s

/-! ### Skip traversal (lines 740-799)

The source recursion is driven by counts and stop markers taken from the
stream, so the model carries explicit fuel; every theorem below supplies
enough fuel that `PErr.outOfFuel` is never reached.  `skip` returns the
channel contents remaining after the skipped value. -/

mutual

/-- skip (lines 740-799), dispatching on the type tag in source order.  An
unrecognized tag falls through the switch, consuming nothing. -/
def skip : Nat → Int → Bytes → Except PErr Bytes
  | 0, _, _ => .error .outOfFuel
  | fuel + 1, t, s =>
    if t = tySTOP then .ok s
    else if t = tyBOOL then
      match readBool s with
      | .error e => .error e
      | .ok (_, s) => .ok s
    else if t = tyBYTE then
      match readByte s with
      | .error e => .error e
      | .ok (_, s) => .ok s
    else if t = tyI16 then
      match readI16 s with
      | .error e => .error e
      | .ok (_, s) => .ok s
    else if t = tyI32 then
      match readI32 s with
      | .error e => .error e
      | .ok (_, s) => .ok s
    else if t = tyI64 then
      match readI64 s with
      | .error e => .error e
      | .ok (_, s) => .ok s
    else if t = tyDOUBLE then
      match readDouble s with
      | .error e => .error e
      | .ok (_, s) => .ok s
    else if t = tySTRING then
      match readString s with
      | .error e => .error e
      | .ok (_, s) => .ok s
    else if t = tySTRUCT then
      match readStructBegin s with
      | .error e => .error e
      | .ok (_, s) => skipFields fuel s
    else if t = tyMAP then
      match readMapBegin s with
      | .error e => .error e
      | .ok ((ktype, vtype, size), s) =>
        match skipMapEntries fuel ktype vtype size 0 s with
        | .error e => .error e
        | .ok s =>
          match readMapEnd s with
          | .error e => .error e
          | .ok (_, s) => .ok s
    else if t = tySET then
      match readSetBegin s with
      | .error e => .error e
      | .ok ((etype, size), s) =>
        match skipElems fuel etype size 0 s with
        | .error e => .error e
        | .ok s =>
          match readSetEnd s with
          | .error e => .error e
          | .ok (_, s) => .ok s
    else if t = tyLIST then
      match readListBegin s with
      | .error e => .error e
      | .ok ((etype, size), s) =>
        match skipElems fuel etype size 0 s with
        | .error e => .error e
        | .ok s =>
          match readListEnd s with
          | .error e => .error e
          | .ok (_, s) => .ok s
    else .ok s

/-- The STRUCT loop of skip (lines 760-769): read field headers until STOP,
recursively skipping each field value, then readStructEnd (a no-op). -/
def skipFields : Nat → Bytes → Except PErr Bytes
  | 0, _ => .error .outOfFuel
  | fuel + 1, s =>
    match readFieldBegin s with
    | .error e => .error e
    | .ok ((ftype, _), s) =>
      if ftype = tySTOP then
        match readStructEnd s with
        | .error e => .error e
        | .ok (_, s) => .ok s
      else
        match skip fuel ftype s with
        | .error e => .error e
        | .ok s =>
          match readFieldEnd s with
          | .error e => .error e
          | .ok (_, s) => skipFields fuel s

/-- The MAP loop of skip (lines 772-781).  On every iteration after the first
(`i > 0`) the source evaluates `this.rstack.length > this.rpos[this.rpos.length
- 1] + 1`, and `this.rpos` is never assigned anywhere in either module (only
`this.rstack` is initialized, line 78), so the member access raises a
TypeError before the entry is skipped. -/
def skipMapEntries : Nat → Int → Int → Int → Int → Bytes → Except PErr Bytes
  | 0, _, _, _, _, _ => .error .outOfFuel
  | fuel + 1, ktype, vtype, size, i, s =>
    if i < size then
      if i > 0 then .error .rposUndefinedTypeError
      else
        match skip fuel ktype s with
        | .error e => .error e
        | .ok s =>
          match skip fuel vtype s with
          | .error e => .error e
          | .ok s => skipMapEntries fuel ktype vtype size (i + 1) s
    else .ok s

/-- The SET / LIST loop of skip (lines 784-797). -/
def skipElems : Nat → Int → Int → Int → Bytes → Except PErr Bytes
  | 0, _, _, _, _ => .error .outOfFuel
  | fuel + 1, etype, size, i, s =>
    if i < size then
      match skip fuel etype s with
      | .error e => .error e
      | .ok s => skipElems fuel etype size (i + 1) s
    else .ok s

end

/-! ### The binary.js variant of readI16 (binary.js lines 450-461)

binary.js reassembles the 16-bit value from two sign-converted protocol bytes
with `((this.readByte().value & 255) << 8 | this.readByte().value & 255)`;
there is no two's-complement step after the reassembly. -/

/-- readI16 of binary.js (lines 459-461). -/
def readI16Bjs (s : Bytes) : Except PErr (Int × Bytes) :=
  match readByte s with
  | .error e => .error e
  | .ok (v0, s) =>
    match readByte s with
    | .error e => .error e
    | .ok (v1, s) => .ok (jsOr (jsShl (jsAnd v0 255) 8) (jsAnd v1 255), s)

/-! ### Arithmetic characterizations of the JavaScript operator model -/

lemma bits32_cast (v : Int) : ((bits32 v : Nat) : Int) = v % 4294967296 := by
  unfold bits32
  exact Int.toNat_of_nonneg (Int.emod_nonneg v (by norm_num))

lemma bits32_lt (v : Int) : bits32 v < 4294967296 := by
  have h := bits32_cast v
  have h2 : v % 4294967296 < 4294967296 := Int.emod_lt_of_pos v (by norm_num)
  omega

lemma ofBits32_small {n : Nat} (h : n < 2147483648) : ofBits32 n = (n : Int) := by
  unfold ofBits32
  rw [Nat.mod_eq_of_lt (by omega)]
  rw [if_pos h]

lemma bits32_ofBits32 {n : Nat} (h : n < 4294967296) : bits32 (ofBits32 n) = n := by
  unfold ofBits32 bits32
  rw [Nat.mod_eq_of_lt h]
  by_cases h2 : n < 2147483648
  · rw [if_pos h2]
    omega
  · rw [if_neg h2]
    omega

lemma bits32_toNat {v : Int} (h1 : 0 ≤ v) (h2 : v < 4294967296) : bits32 v = v.toNat := by
  unfold bits32
  rw [Int.emod_eq_of_lt h1 h2]

lemma toInt32_self {v : Int} (h1 : -2147483648 ≤ v) (h2 : v < 2147483648) :
    ofBits32 (bits32 v) = v := by
  have hc := bits32_cast v
  have hlt := bits32_lt v
  unfold ofBits32
  rw [Nat.mod_eq_of_lt hlt]
  by_cases hb : bits32 v < 2147483648
  · rw [if_pos hb]
    omega
  · rw [if_neg hb]
    omega

lemma land_255 (n : Nat) : Nat.land n 255 = n % 256 := by
  apply Nat.eq_of_testBit_eq
  intro i
  rw [show Nat.land n 255 = n &&& 255 from rfl, Nat.testBit_and,
    show (256 : Nat) = 2 ^ 8 from by norm_num, Nat.testBit_mod_two_pow,
    show (255 : Nat) = 2 ^ 8 - 1 from by norm_num, Nat.testBit_two_pow_sub_one]
  cases h : n.testBit i <;> simp

lemma jsAnd_255 (v : Int) : jsAnd v 255 = v % 256 := by
  unfold jsAnd
  have h255 : bits32 255 = 255 := by decide
  rw [h255, land_255]
  have hlt : bits32 v % 256 < 256 := Nat.mod_lt _ (by norm_num)
  rw [ofBits32_small (by omega)]
  have hc := bits32_cast v
  have : ((bits32 v % 256 : Nat) : Int) = (v % 4294967296) % 256 := by
    rw [← hc]
    push_cast
    rfl
  rw [this, Int.emod_emod_of_dvd v (by norm_num)]

lemma jsShr_eq {v : Int} (h1 : -2147483648 ≤ v) (h2 : v < 2147483648) {k : Nat} (hk : k < 32) :
    jsShr v k = v / 2 ^ k := by
  unfold jsShr
  rw [toInt32_self h1 h2, Nat.mod_eq_of_lt hk]

set_option maxRecDepth 4000 in
lemma byte_xor (b : Nat) (h : b < 256) : Nat.xor b 255 = 255 - b := by
  revert h
  revert b
  decide

lemma jsXor_255 {v : Int} (h1 : 0 ≤ v) (h2 : v < 256) : jsXor v 255 = 255 - v := by
  unfold jsXor
  have h255 : bits32 255 = 255 := by decide
  rw [h255, bits32_toNat h1 (by omega), byte_xor v.toNat (by omega)]
  rw [ofBits32_small (by omega)]
  omega

set_option maxRecDepth 4000 in
lemma byte_land128 (b : Nat) (h : b < 256) :
    Nat.land b 128 = if b < 128 then 0 else 128 := by
  revert h
  revert b
  decide

lemma jsAnd_128 {v : Int} (h1 : 0 ≤ v) (h2 : v < 256) :
    jsAnd v 128 = if v < 128 then 0 else 128 := by
  unfold jsAnd
  have h128 : bits32 128 = 128 := by decide
  rw [h128, bits32_toNat h1 (by omega), byte_land128 v.toNat (by omega)]
  by_cases hb : v < 128
  · rw [if_pos (by omega), if_pos hb]
    rfl
  · rw [if_neg (by omega), if_neg hb]
    rfl

lemma lor_mul_pow (a b k : Nat) (hb : b < 2 ^ k) : Nat.lor (2 ^ k * a) b = 2 ^ k * a + b := by
  show (2 ^ k * a) ||| b = 2 ^ k * a + b
  apply Nat.eq_of_testBit_eq
  intro j
  rw [Nat.testBit_lor, Nat.testBit_mul_pow_two_add a hb j]
  have hz : (2 ^ k * a).testBit j = if j < k then false else a.testBit (j - k) := by
    have h0 : (0 : Nat) < 2 ^ k := Nat.pos_pow_of_pos k (by norm_num)
    have := Nat.testBit_mul_pow_two_add a h0 j
    simpa using this
  by_cases hj : j < k
  · simp [hj, hz]
  · have hbj : b.testBit j = false := by
      apply Nat.testBit_lt_two_pow
      calc b < 2 ^ k := hb
        _ ≤ 2 ^ j := Nat.pow_le_pow_right (by norm_num) (Nat.le_of_not_lt hj)
    simp [hj, hz, hbj]

lemma jsShl_eq {v : Int} (h1 : 0 ≤ v) (h2 : v < 256) {k : Nat} (hk : k < 32) :
    jsShl v k = ofBits32 (v.toNat * 2 ^ k) := by
  unfold jsShl
  rw [bits32_toNat h1 (by omega), Nat.mod_eq_of_lt hk,
    show Nat.shiftLeft v.toNat k = v.toNat <<< k from rfl, Nat.shiftLeft_eq]

lemma jsOr_pattern (p : Nat) (b : Int) (k : Nat) (hp : p < 4294967296) (hd : p % 2 ^ k = 0)
    (hb1 : 0 ≤ b) (hb2 : b.toNat < 2 ^ k) (hk : k ≤ 32) :
    jsOr (ofBits32 p) b = ofBits32 (p + b.toNat) := by
  have hb32 : b.toNat < 4294967296 := lt_of_lt_of_le hb2 (by
    calc (2 : Nat) ^ k ≤ 2 ^ 32 := Nat.pow_le_pow_right (by norm_num) hk
      _ = 4294967296 := by norm_num)
  unfold jsOr
  rw [bits32_ofBits32 hp, bits32_toNat hb1 (by omega)]
  have hpk : p = 2 ^ k * (p / 2 ^ k) := by
    rw [Nat.mul_comm]
    exact (Nat.div_mul_cancel (Nat.dvd_of_mod_eq_zero hd)).symm
  rw [hpk, lor_mul_pow _ _ _ hb2]

lemma jsOr_zero (x : Int) : jsOr 0 x = ofBits32 (bits32 x) := by
  unfold jsOr
  have h0 : bits32 0 = 0 := by decide
  rw [h0, show Nat.lor 0 (bits32 x) = 0 ||| bits32 x from rfl, Nat.zero_or]

lemma ofBits32_int {m : Nat} {v : Int} (h : (m : Int) = v % 4294967296)
    (h1 : -2147483648 ≤ v) (h2 : v < 2147483648) : ofBits32 m = v := by
  unfold ofBits32
  have hm : m < 4294967296 := by omega
  rw [Nat.mod_eq_of_lt hm]
  by_cases hb : m < 2147483648
  · rw [if_pos hb]
    omega
  · rw [if_neg hb]
    omega

/-- Reassembling two in-range bytes with `(a << 8) | b` yields `a * 256 + b`. -/
lemma jsOr_byte_pair {a b : Int} (ha0 : 0 ≤ a) (ha : a < 256) (hb0 : 0 ≤ b) (hb : b < 256) :
    jsOr (jsShl a 8) b = a * 256 + b := by
  rw [jsShl_eq ha0 ha (by norm_num)]
  rw [jsOr_pattern (a.toNat * 2 ^ 8) b 8 (by omega) (by omega) hb0 (by omega) (by norm_num)]
  rw [ofBits32_small (by omega)]
  omega

/-! ### Round-trip lemmas for the fixed-width packers -/

lemma u16_p16 {v : Int} (h1 : int16min ≤ v) (h2 : v ≤ int16max) : u16 (p16 v) = v := by
  simp only [int16min, int16max] at h1 h2
  have hv1 : -2147483648 ≤ v := by omega
  have hv2 : v < 2147483648 := by omega
  have hhi : jsAnd (jsShr v 8) 255 = v / 256 % 256 := by
    rw [jsShr_eq hv1 hv2 (by norm_num), jsAnd_255]
    norm_num
  have hlo : jsAnd v 255 = v % 256 := jsAnd_255 v
  have hhi0 : 0 ≤ v / 256 % 256 := Int.emod_nonneg _ (by norm_num)
  have hhi256 : v / 256 % 256 < 256 := Int.emod_lt_of_pos _ (by norm_num)
  have hlo0 : 0 ≤ v % 256 := Int.emod_nonneg _ (by norm_num)
  have hlo256 : v % 256 < 256 := Int.emod_lt_of_pos _ (by norm_num)
  unfold u16 p16
  simp only [List.getD, List.get?_cons_zero, List.get?_cons_succ, Option.getD_some]
  rw [hhi, hlo, jsAnd_128 hhi0 hhi256]
  by_cases hv : 0 ≤ v
  · have hdivlt : v / 256 % 256 < 128 := by omega
    rw [if_pos hdivlt]
    rw [if_neg (by norm_num : ¬((0 : Int) ≠ 0))]
    rw [jsOr_byte_pair hhi0 hhi256 hlo0 hlo256]
    omega
  · have hdivge : ¬(v / 256 % 256 < 128) := by omega
    rw [if_neg hdivge]
    rw [if_pos (by norm_num : ((128 : Int) ≠ 0))]
    rw [jsXor_255 hhi0 hhi256, jsXor_255 hlo0 hlo256]
    rw [jsOr_byte_pair (by omega) (by omega) (by omega) (by omega)]
    omega

lemma u32_p32 {v : Int} (h1 : int32min ≤ v) (h2 : v ≤ int32max) : u32 (p32 v) = v := by
  simp only [int32min, int32max] at h1 h2
  have hv1 : -2147483648 ≤ v := by omega
  have hv2 : v < 2147483648 := by omega
  have he0 : jsAnd (jsShr v 24) 255 = v / 16777216 % 256 := by
    rw [jsShr_eq hv1 hv2 (by norm_num), jsAnd_255]
    norm_num
  have he1 : jsAnd (jsShr v 16) 255 = v / 65536 % 256 := by
    rw [jsShr_eq hv1 hv2 (by norm_num), jsAnd_255]
    norm_num
  have he2 : jsAnd (jsShr v 8) 255 = v / 256 % 256 := by
    rw [jsShr_eq hv1 hv2 (by norm_num), jsAnd_255]
    norm_num
  have he3 : jsAnd v 255 = v % 256 := jsAnd_255 v
  have h0a : (0 : Int) ≤ v / 16777216 % 256 := Int.emod_nonneg _ (by norm_num)
  have h0b : v / 16777216 % 256 < 256 := Int.emod_lt_of_pos _ (by norm_num)
  have h1a : (0 : Int) ≤ v / 65536 % 256 := Int.emod_nonneg _ (by norm_num)
  have h1b : v / 65536 % 256 < 256 := Int.emod_lt_of_pos _ (by norm_num)
  have h2a : (0 : Int) ≤ v / 256 % 256 := Int.emod_nonneg _ (by norm_num)
  have h2b : v / 256 % 256 < 256 := Int.emod_lt_of_pos _ (by norm_num)
  have h3a : (0 : Int) ≤ v % 256 := Int.emod_nonneg _ (by norm_num)
  have h3b : v % 256 < 256 := Int.emod_lt_of_pos _ (by norm_num)
  unfold u32 p32
  simp only [List.getD, List.get?_cons_zero, List.get?_cons_succ, Option.getD_some]
  rw [he0, he1, he2, he3]
  rw [jsShl_eq h0a h0b (by norm_num), jsOr_zero,
    bits32_ofBits32 (show (v / 16777216 % 256).toNat * 2 ^ 24 < 4294967296 by omega)]
  rw [jsShl_eq h1a h1b (by norm_num),
    ofBits32_small (show (v / 65536 % 256).toNat * 2 ^ 16 < 2147483648 by omega)]
  rw [jsOr_pattern _ _ 24 (by omega) (by omega) (by positivity) (by omega) (by norm_num)]
  rw [jsShl_eq h2a h2b (by norm_num),
    ofBits32_small (show (v / 256 % 256).toNat * 2 ^ 8 < 2147483648 by omega)]
  rw [jsOr_pattern _ _ 16 (by omega) (by omega) (by positivity) (by omega) (by norm_num)]
  rw [jsOr_pattern _ _ 8 (by omega) (by omega) h3a (by omega) (by norm_num)]
  apply ofBits32_int _ hv1 hv2
  omega

set_option maxHeartbeats 1600000 in
lemma parseHex_hexBytes (n : Nat) (h : n < 18446744073709551616) :
    parseHex (hexBytes n) = (n : Int) := by
  unfold parseHex hexBytes
  simp only [List.foldl_cons, List.foldl_nil]
  push_cast
  omega

/-- Double complement of a byte-sized entry is the identity. -/
lemma double_xor_mod (x : Nat) :
    jsXor (jsXor ((x % 256 : Nat) : Int) 255) 255 = ((x % 256 : Nat) : Int) := by
  have hx : ((x % 256 : Nat) : Int) < 256 := by
    have := Nat.mod_lt x (show 0 < 256 by norm_num)
    exact_mod_cast this
  have hx0 : (0 : Int) ≤ ((x % 256 : Nat) : Int) := by positivity
  rw [@jsXor_255 ((x % 256 : Nat) : Int) hx0 hx]
  rw [@jsXor_255 (255 - ((x % 256 : Nat) : Int)) (by omega) (by omega)]
  omega

lemma u64_p64 {v : Int} (h1 : int64min ≤ v) (h2 : v ≤ int64max) : u64 (p64 v) = v := by
  simp only [int64min, int64max] at h1 h2
  by_cases hv : v < 0
  · have hn : ((v + 1).natAbs : Int) = -(v + 1) := by omega
    have hnlt : (v + 1).natAbs < 18446744073709551616 := by omega
    have htop : (v + 1).natAbs / 2 ^ 56 % 256 = 0 := by omega
    unfold p64
    rw [if_pos hv]
    unfold u64
    have hhead : ((hexBytes (v + 1).natAbs).map (fun b => jsXor b 255)).headD 0
        = jsXor (((v + 1).natAbs / 2 ^ 56 % 256 : Nat) : Int) 255 := by
      unfold hexBytes
      simp [List.map]
    rw [if_pos (by
      rw [hhead, htop]
      decide)]
    have hmap : ((hexBytes (v + 1).natAbs).map (fun b => jsXor b 255)).map (fun b => jsXor b 255)
        = hexBytes (v + 1).natAbs := by
      unfold hexBytes
      simp only [List.map]
      rw [show ((v + 1).natAbs % 256 : Nat) = ((v + 1).natAbs % 256 % 256 : Nat) by omega]
      simp only [double_xor_mod]
    rw [hmap, parseHex_hexBytes _ hnlt]
    omega
  · have hn : (v.natAbs : Int) = v := by omega
    have hnlt : v.natAbs < 18446744073709551616 := by omega
    unfold p64
    rw [if_neg hv]
    unfold u64
    have hhead : (hexBytes v.natAbs).headD 0 = ((v.natAbs / 2 ^ 56 % 256 : Nat) : Int) := by
      unfold hexBytes
      simp
    have htop : v.natAbs / 2 ^ 56 % 256 = 0 := by omega
    rw [if_neg (by
      rw [hhead, htop]
      decide)]
    rw [parseHex_hexBytes _ hnlt]
    exact hn

lemma rt16 {v : Int} (h1 : int16min ≤ v) (h2 : v ≤ int16max) :
    (pack16 v).bind unpack16 = .ok v := by
  have hp : pack16 v = .ok (p16 v) := by
    unfold pack16
    rw [if_neg (by omega), if_neg (by omega)]
  rw [hp]
  show unpack16 (p16 v) = .ok v
  have hlen : (p16 v).length = 2 := rfl
  unfold unpack16
  rw [hlen]
  rw [if_neg (by norm_num)]
  rw [u16_p16 h1 h2]

lemma rt32 {v : Int} (h1 : int32min ≤ v) (h2 : v ≤ int32max) :
    (pack32 v).bind unpack32 = .ok v := by
  have hp : pack32 v = .ok (p32 v) := by
    unfold pack32
    rw [if_neg (by omega), if_neg (by omega)]
  rw [hp]
  show unpack32 (p32 v) = .ok v
  have hlen : (p32 v).length = 4 := rfl
  unfold unpack32
  rw [hlen]
  rw [if_neg (by norm_num)]
  rw [u32_p32 h1 h2]

lemma rt64 {v : Int} (h1 : int64min ≤ v) (h2 : v ≤ int64max) :
    (pack64 v).bind unpack64 = .ok v := by
  have hp : pack64 v = .ok (p64 v) := by
    unfold pack64
    rw [if_neg (by omega), if_neg (by omega)]
  rw [hp]
  show unpack64 (p64 v) = .ok v
  have hlen : (p64 v).length = 8 := by
    unfold p64
    by_cases hv : v < 0
    · rw [if_pos hv]
      rfl
    · rw [if_neg hv]
      rfl
  unfold unpack64
  rw [hlen]
  rw [if_neg (by norm_num)]
  rw [u64_p64 h1 h2]

/-! ### Supporting lemmas for the message-framing claims -/

lemma pack32_ok_inv {v : Int} {bs : Bytes} (h : pack32 v = .ok bs) :
    int32min ≤ v ∧ v ≤ int32max ∧ bs = p32 v := by
  unfold pack32 at h
  by_cases ha : v < int32min
  · rw [if_pos ha] at h
    exact absurd h (by simp)
  · rw [if_neg ha] at h
    by_cases hb : v > int32max
    · rw [if_pos hb] at h
      exact absurd h (by simp)
    · rw [if_neg hb] at h
      injection h with h
      exact ⟨by omega, by omega, h.symm⟩

lemma readI32_p32 {v : Int} (h1 : int32min ≤ v) (h2 : v ≤ int32max) (rest : Bytes) :
    readI32 (p32 v ++ rest) = .ok (v, rest) := by
  have hu := u32_p32 h1 h2
  have hup : unpack32 [jsAnd (jsShr v 24) 255, jsAnd (jsShr v 16) 255, jsAnd (jsShr v 8) 255,
      jsAnd v 255] = .ok v := by
    unfold unpack32
    rw [if_neg (by simp)]
    exact congrArg Except.ok hu
  show readI32 (jsAnd (jsShr v 24) 255 :: jsAnd (jsShr v 16) 255 :: jsAnd (jsShr v 8) 255
    :: jsAnd v 255 :: rest) = .ok (v, rest)
  simp only [readI32, hup]

lemma writeByte_ok_inv {v : Int} {bs : Bytes} (h : writeByte v = .ok bs) : bs = [v] := by
  unfold writeByte at h
  by_cases hc : v ≤ -(2 ^ 31) ∨ v ≥ 2 ^ 31
  · rw [if_pos hc] at h
    exact absurd h (by simp)
  · rw [if_neg hc] at h
    injection h with h
    exact h.symm

/-- Evaluating `readByte` on one in-range octet: the sign conversion
`0 - ((val - 1) ^ 0xff)` subtracts 256 from values above 0x7f. -/
lemma readByte_octet {x : Int} (h0 : 0 ≤ x) (h1 : x < 256) (rest : Bytes) :
    readByte (x :: rest) = .ok ((if x > 127 then x - 256 else x), rest) := by
  show (if x > 127 then Except.ok (0 - jsXor (x - 1) 255, rest) else .ok (x, rest))
    = .ok ((if x > 127 then x - 256 else x), rest)
  by_cases hx : x > 127
  · rw [if_pos hx, if_pos hx, jsXor_255 (by omega) (by omega)]
    norm_num
    omega
  · rw [if_neg hx, if_neg hx]

/-- Evaluating `u16` on two in-range octets. -/
lemma u16_octets {b0 b1 : Int} (h00 : 0 ≤ b0) (h01 : b0 < 256) (h10 : 0 ≤ b1)
    (h11 : b1 < 256) :
    u16 [b0, b1] = if b0 < 128 then b0 * 256 + b1 else b0 * 256 + b1 - 65536 := by
  unfold u16
  simp only [List.getD, List.get?_cons_zero, List.get?_cons_succ, Option.getD_some]
  rw [jsAnd_128 h00 h01]
  by_cases hb : b0 < 128
  · rw [if_pos hb, if_pos hb]
    rw [if_neg (by norm_num : ¬((0 : Int) ≠ 0))]
    rw [jsOr_byte_pair h00 h01 h10 h11]
  · rw [if_neg hb, if_neg hb]
    rw [if_pos (by norm_num : ((128 : Int) ≠ 0))]
    rw [jsXor_255 h00 h01, jsXor_255 h10 h11]
    rw [jsOr_byte_pair (by omega) (by omega) (by omega) (by omega)]
    omega

/-! ### Claim theorems -/

/-- C1.  The claim reads: for every negative 4-byte header, `readMessageBegin`
masks the i32 with `VERSION_MASK` and fails with MissingVersionIdentifier iff
the masked value differs from `VERSION_1`; when they are equal it extracts the
kind from the low byte and reads name and seqId.  The code instead evaluates
`version & (VERSION_MASK !== VERSION_1)`, i.e. `version & 1`, because `!==`
binds tighter than `&` in JavaScript.  Evaluation at concrete headers shows
both directions of the claimed iff fail: the header 80 01 00 01 (a strict CALL
header), whose masked 32-bit pattern is exactly `VERSION_1`, is rejected with
MissingVersionIdentifier, while the corrupt header 80 02 00 00, whose masked
pattern differs from `VERSION_1`, is accepted; the even-kind header 80 01 00
04 shows the successful path (kind from the low byte, then name and seqId). -/
theorem C1_readMessageBegin_version_dispatch :
    readMessageBegin true [128, 1, 0, 1] = .error .missingVersionIdentifier
  ∧ u32 [128, 1, 0, 1] < 0
  ∧ Nat.land (bits32 (u32 [128, 1, 0, 1])) (bits32 VERSION_MASK) = bits32 VERSION_1
  ∧ readMessageBegin true [128, 2, 0, 0, 0, 0, 0, 0, 0, 0, 0, 9] = .ok (⟨[], 0, 9⟩, [])
  ∧ u32 [128, 2, 0, 0] < 0
  ∧ Nat.land (bits32 (u32 [128, 2, 0, 0])) (bits32 VERSION_MASK) ≠ bits32 VERSION_1
  ∧ readMessageBegin true [128, 1, 0, 4, 0, 0, 0, 0, 0, 0, 0, 9] = .ok (⟨[], 4, 9⟩, []) := by
  refine ⟨by decide, by decide, by decide, by decide, by decide, by decide, by decide⟩

/-- C2.  Writing ("ping", CALL, 42) with strictWrite emits exactly the claimed
16 bytes, but reading those very bytes back with strictRead does not return
{ping, CALL, 42}: the version word 0x80010001 is odd, so the mis-parenthesized
version test (`version & 1`) rejects it with MissingVersionIdentifier. -/
theorem C2_ping_strict_roundtrip :
    writeMessageBegin true [112, 105, 110, 103] msgCALL 42
      = .ok [128, 1, 0, 1, 0, 0, 0, 4, 112, 105, 110, 103, 0, 0, 0, 42]
  ∧ readMessageBegin true [128, 1, 0, 1, 0, 0, 0, 4, 112, 105, 110, 103, 0, 0, 0, 42]
      = .error .missingVersionIdentifier := by
  refine ⟨by decide, by decide⟩

/-- C3.  Round-trip of the width-2, width-4 and width-8 packers over the full
range each packer accepts. -/
theorem C3_pack_unpack_roundtrip (v : Int) :
    (int16min ≤ v ∧ v ≤ int16max → (pack16 v).bind unpack16 = .ok v)
  ∧ (int32min ≤ v ∧ v ≤ int32max → (pack32 v).bind unpack32 = .ok v)
  ∧ (int64min ≤ v ∧ v ≤ int64max → (pack64 v).bind unpack64 = .ok v) :=
  ⟨fun h => rt16 h.1 h.2, fun h => rt32 h.1 h.2, fun h => rt64 h.1 h.2⟩

theorem C3_pack_unpack_roundtrip_witness :
    (pack16 (-12345)).bind unpack16 = .ok (-12345)
  ∧ (pack32 (-559038737)).bind unpack32 = .ok (-559038737)
  ∧ (pack64 (-9007199254740991)).bind unpack64 = .ok (-9007199254740991) :=
  ⟨(C3_pack_unpack_roundtrip (-12345)).1 (by decide),
   (C3_pack_unpack_roundtrip (-559038737)).2.1 (by decide),
   (C3_pack_unpack_roundtrip (-9007199254740991)).2.2 (by decide)⟩

/-- C4.  The claim asserts that `skip(STRUCT)` on any Frame-Writer-serialized
struct consumes exactly the written bytes and raises no error of its own.
Failing instance: the struct `{field 1 : map<bool,bool> with 2 entries}`.  The
Frame Writer serializes it to the bytes shown (field header, map header, four
booleans, stop byte); with a sentinel byte 99 appended, `skip(STRUCT)` crashes
with the TypeError from the uninitialized `this.rpos` on the second map entry
instead of consuming the struct.  The same struct with a 1-entry map is
skipped exactly, leaving the sentinel: the crash is reached exactly when a map
has two or more entries. -/
theorem C4_skip_struct_map_crash :
    (writeStructBegin = ([] : Bytes)
      ∧ writeFieldBegin tyMAP 1 = .ok [13, 0, 1]
      ∧ writeMapBegin tyBOOL tyBOOL 2 = .ok [2, 2, 0, 0, 0, 2]
      ∧ writeMapBegin tyBOOL tyBOOL 1 = .ok [2, 2, 0, 0, 0, 1]
      ∧ writeBool true = .ok [1]
      ∧ writeBool false = .ok [0]
      ∧ writeFieldStop = .ok [0]
      ∧ writeStructEnd = ([] : Bytes))
  ∧ skip 64 tySTRUCT [13, 0, 1, 2, 2, 0, 0, 0, 2, 1, 0, 1, 1, 0, 99]
      = .error .rposUndefinedTypeError
  ∧ skip 64 tySTRUCT [13, 0, 1, 2, 2, 0, 0, 0, 1, 1, 0, 0, 99] = .ok [99] := by
  refine ⟨⟨rfl, by decide, by decide, by decide, by decide, by decide, by decide, rfl⟩,
    by decide, by decide⟩

/-- C5 counterexample.  The claim asserts the width-2 packer succeeds at the
exact minimum of the signed two's-complement range, -32768; the code sets
`int16min = -int16max = -32767` and rejects -32768 as out of range. -/
theorem C5_counterexample : pack16 (-32768) = .error .numTooSmallI16 := by decide

/-- C5 amended: each packer's range is symmetric, `[-(2^(8w-1)-1), 2^(8w-1)-1]`
for w in {2,4} (one above the two's-complement minimum) and `[-(2^53-1),
2^53-1]` (the host exact-integer range) for w=8; every packer succeeds at the
exact bounds of its range and fails with the out-of-range error one unit
beyond each bound. -/
theorem C5_pack_bounds :
    (pack16 32767 = .ok [127, 255]
      ∧ pack16 (-32767) = .ok [128, 1]
      ∧ pack16 32768 = .error .numTooLargeI16
      ∧ pack16 (-32768) = .error .numTooSmallI16)
  ∧ (pack32 2147483647 = .ok [127, 255, 255, 255]
      ∧ pack32 (-2147483647) = .ok [128, 0, 0, 1]
      ∧ pack32 2147483648 = .error .numTooLargeI32
      ∧ pack32 (-2147483648) = .error .numTooSmallI32)
  ∧ (pack64 9007199254740991 = .ok [0, 31, 255, 255, 255, 255, 255, 255]
      ∧ pack64 (-9007199254740991) = .ok [255, 224, 0, 0, 0, 0, 0, 1]
      ∧ pack64 9007199254740992 = .error .numTooLargeI64
      ∧ pack64 (-9007199254740992) = .error .numTooSmallI64) := by
  refine ⟨⟨by decide, by decide, by decide, by decide⟩,
    ⟨by decide, by decide, by decide, by decide⟩,
    ⟨by decide, by decide, by decide, by decide⟩⟩

/-- C6 counterexample.  The claim asserts writeByte(v) fails for every v
outside [-128, 127]; the code's guard is against ±2^31, so 128 is accepted and
forwarded to the channel unchanged. -/
theorem C6_counterexample : writeByte 128 = .ok [128] := by decide

/-- C6 amended: writeByte fails (with a generic Error, not OutOfRange) exactly
for v ≤ -2^31 or v ≥ 2^31; any other value - including every value outside the
signed-byte range [-128, 127] - is forwarded to the channel as a single
(possibly out-of-octet-range) value. -/
theorem C6_writeByte_range (v : Int) :
    (-(2 ^ 31) < v → v < 2 ^ 31 → writeByte v = .ok [v])
  ∧ (v ≤ -(2 ^ 31) ∨ 2 ^ 31 ≤ v → writeByte v = .error .incorrectForByte) := by
  constructor
  · intro hl hr
    unfold writeByte
    rw [if_neg (by omega)]
  · intro hc
    unfold writeByte
    rw [if_pos (by omega)]

theorem C6_writeByte_range_witness :
    writeByte 200 = .ok [200] ∧ writeByte 2147483648 = .error .incorrectForByte :=
  ⟨(C6_writeByte_range 200).1 (by norm_num) (by norm_num),
   (C6_writeByte_range 2147483648).2 (by norm_num)⟩

/-- C7.  Any message written with strictWrite=false starts with the i32 byte
length of the utf8-encoded name, which is non-negative; reading it back with
strictRead=true therefore takes the unversioned branch and fails with
InvalidVersionIdentifier. -/
theorem C7_nonstrict_write_strict_read (name : Bytes) (type seqid : Int) (bs : Bytes)
    (h : writeMessageBegin false name type seqid = .ok bs) :
    readMessageBegin true bs = .error .invalidVersionIdentifier := by
  unfold writeMessageBegin at h
  rw [if_neg (by simp)] at h
  cases hws : writeString name with
  | error e =>
    rw [hws] at h
    exact absurd h (by simp)
  | ok a =>
    rw [hws] at h
    cases hwb : writeByte type with
    | error e =>
      rw [hwb] at h
      exact absurd h (by simp)
    | ok b =>
      rw [hwb] at h
      cases hwi : writeI32 seqid with
      | error e =>
        rw [hwi] at h
        exact absurd h (by simp)
      | ok c =>
        rw [hwi] at h
        injection h with h
        unfold writeString at hws
        cases hp : writeI32 ((name.length : Nat) : Int) with
        | error e =>
          rw [hp] at hws
          exact absurd hws (by simp)
        | ok lenBytes =>
          rw [hp] at hws
          injection hws with hws
          obtain ⟨hL1, hL2, hlb⟩ := pack32_ok_inv hp
          have hbs : bs = p32 ((name.length : Nat) : Int) ++ (name ++ (b ++ c)) := by
            rw [← h, ← hws, hlb]
            simp [List.append_assoc]
          rw [hbs]
          unfold readMessageBegin
          simp only [readI32_p32 hL1 hL2]
          rw [if_neg (by omega)]
          rw [if_pos trivial]

theorem C7_nonstrict_write_strict_read_witness :
    readMessageBegin true [0, 0, 0, 0, 1, 0, 0, 0, 0] = .error .invalidVersionIdentifier :=
  C7_nonstrict_write_strict_read [] 1 0 [0, 0, 0, 0, 1, 0, 0, 0, 0] (by decide)

/-- C9.  Every *End operation is a no-op: the six write ends emit no bytes and
the six read ends consume no bytes (and return the fixed values of the
source), leaving the channel state unchanged. -/
theorem C9_end_operations_are_noops (s : Bytes) :
    writeMessageEnd = ([] : Bytes)
  ∧ writeStructEnd = ([] : Bytes)
  ∧ writeFieldEnd = ([] : Bytes)
  ∧ writeMapEnd = ([] : Bytes)
  ∧ writeListEnd = ([] : Bytes)
  ∧ writeSetEnd = ([] : Bytes)
  ∧ readMessageEnd s = .ok ((), s)
  ∧ readStructEnd s = .ok ((), s)
  ∧ readFieldEnd s = .ok ([], s)
  ∧ readMapEnd s = .ok ([], s)
  ∧ readListEnd s = .ok ([], s)
  ∧ readSetEnd s = .ok ([], s) :=
  ⟨rfl, rfl, rfl, rfl, rfl, rfl, rfl, rfl, rfl, rfl, rfl, rfl⟩

/-- C10 counterexample.  The claim asserts the two readI16 implementations
agree on every pair of input bytes; on the pair (0x80, 0x00) the binary.js
variant returns the unsigned 32768 while the unnamed variant returns the
two's-complement -32768. -/
theorem C10_counterexample :
    readI16Bjs [128, 0] = .ok (32768, [])
  ∧ readI16 [128, 0] = .ok (-32768, [])
  ∧ readI16Bjs [128, 0] ≠ readI16 [128, 0] := by
  refine ⟨by decide, by decide, by decide⟩

/-- C10 amended: on any pair of octets the two implementations agree exactly
when the high bit of the first byte is clear; binary.js always returns the
unsigned reassembly b0*256+b1, while the unnamed variant returns the signed
value, 65536 lower whenever the high bit of b0 is set. -/
theorem C10_readI16_comparison (b0 b1 : Int) (h00 : 0 ≤ b0) (h01 : b0 < 256)
    (h10 : 0 ≤ b1) (h11 : b1 < 256) :
    readI16Bjs [b0, b1] = .ok (b0 * 256 + b1, [])
  ∧ readI16 [b0, b1] = .ok ((if b0 < 128 then b0 * 256 + b1 else b0 * 256 + b1 - 65536), []) := by
  constructor
  · have hv0 : jsAnd (if b0 > 127 then b0 - 256 else b0) 255 = b0 := by
      rw [jsAnd_255]
      by_cases hb : b0 > 127
      · rw [if_pos hb]
        omega
      · rw [if_neg hb]
        omega
    have hv1 : jsAnd (if b1 > 127 then b1 - 256 else b1) 255 = b1 := by
      rw [jsAnd_255]
      by_cases hb : b1 > 127
      · rw [if_pos hb]
        omega
      · rw [if_neg hb]
        omega
    unfold readI16Bjs
    simp only [readByte_octet h00 h01, readByte_octet h10 h11]
    rw [hv0, hv1, jsOr_byte_pair h00 h01 h10 h11]
  · have hup : unpack16 [b0, b1] = .ok (u16 [b0, b1]) := by
      unfold unpack16
      rw [if_neg (by simp)]
    simp only [readI16, hup, u16_octets h00 h01 h10 h11]

theorem C10_readI16_comparison_witness :
    readI16Bjs [130, 7] = .ok (130 * 256 + 7, [])
  ∧ readI16 [130, 7]
      = .ok ((if (130 : Int) < 128 then 130 * 256 + 7 else 130 * 256 + 7 - 65536), []) :=
  C10_readI16_comparison 130 7 (by norm_num) (by norm_num) (by norm_num) (by norm_num)


end KBThrift
